import Mathlib

/-!
Verification of the user CRUD service in `src/src/main.rs` (actix-web +
sqlx/SQLite).  The repository layer issues four parameterized SQL
statements against a single `users` table; the route handlers map the
repository results to HTTP responses.  We embed the table as an explicit
list of rows, the repository operations as pure functions over that state
(with a boolean flag standing for an underlying store failure), and the
handlers as functions producing an HTTP status plus body.
-/

namespace RustApi

/-- JSON values as produced/consumed by serde (de)serialization. -/
inductive Json where
  | null : Json
  | num : Int → Json
  | str : String → Json
  | arr : List Json → Json
  | obj : List (String × Json) → Json
  deriving Repr

/-- The `User` model of `main.rs` lines 219-224: `id : Option<i64>`,
`username : String`, `email : String`. -/
structure User where
  id : Option Int
  username : String
  email : String
  deriving Repr, DecidableEq

/-- serde `Serialize` for `User`: an object with the three fields, the
optional `id` serialized as a number or `null`. -/
def User.toJson (u : User) : Json :=
  Json.obj [("id", match u.id with | none => Json.null | some n => Json.num n),
            ("username", Json.str u.username),
            ("email", Json.str u.email)]

/-- serde `Deserialize` for `User` (derived): `username` and `email` are
required string fields; the `Option<i64>` field `id` may be absent, `null`,
or an integer. Any other shape is a deserialization error. -/
def User.fromJson : Json → Option User
  | Json.obj fields =>
    match List.lookup "username" fields, List.lookup "email" fields with
    | some (Json.str un), some (Json.str em) =>
      match List.lookup "id" fields with
      | none => some { id := none, username := un, email := em }
      | some Json.null => some { id := none, username := un, email := em }
      | some (Json.num n) => some { id := some n, username := un, email := em }
      | some _ => none
    | _, _ => none
  | _ => none

/-- A persisted row of the `users` table.  Modelled from the spec: the
`migrations` directory is not under `src/`; per the spec the table has
columns `id` (integer, primary, auto-assigned, hence non-null), `username`
(text) and `email` (text). -/
structure Row where
  id : Int
  username : String
  email : String
  deriving Repr, DecidableEq

/-- The SQLite `users` table state.  Modelled from the spec: `id` is
"assigned exclusively by the Schema Store (auto-incrementing)", so we carry
the next id the store will assign. -/
structure Db where
  rows : List Row
  nextId : Int
  deriving Repr, DecidableEq

/-- A freshly migrated, empty store. -/
def Db.empty : Db := { rows := [], nextId := 1 }

/-- Ids are assigned in increasing order, so every persisted id is below
the next one the store will assign. -/
def Db.wf (db : Db) : Prop := ∀ r ∈ db.rows, r.id < db.nextId

instance (db : Db) : Decidable db.wf :=
  inferInstanceAs (Decidable (∀ r ∈ db.rows, r.id < db.nextId))

/-- Mapping a fetched row into the `User` record, as `query_as!` does:
the selected `id` column of a persisted row is always present. -/
def Row.toUser (r : Row) : User :=
  { id := some r.id, username := r.username, email := r.email }

/-- The `Result<_, sqlx::Error>` of every repository operation: either the
operation's value, or a failure of the underlying store. -/
inductive DbResult (α : Type) where
  | ok : α → DbResult α
  | storeError : DbResult α
  deriving Repr, DecidableEq

namespace UserRepository

/-- `UserRepository::list_users` (main.rs 109-116):
`SELECT id, username, email FROM users`, `fetch_all`.  The `fail` flag
stands for a failure of the underlying store during the query. -/
def list_users (fail : Bool) (db : Db) : DbResult (List User) :=
  if fail then DbResult.storeError
  else DbResult.ok (db.rows.map Row.toUser)

/-- `UserRepository::create_user` (main.rs 119-132):
`INSERT INTO users (username, email) VALUES (?, ?) RETURNING id, username,
email`, `fetch_one`.  The store assigns the next id. -/
def create_user (fail : Bool) (db : Db) (username email : String) :
    DbResult (User × Db) :=
  if fail then DbResult.storeError
  else
    let r : Row := { id := db.nextId, username := username, email := email }
    DbResult.ok (r.toUser, { rows := db.rows ++ [r], nextId := db.nextId + 1 })

/-- `UserRepository::get_user_by_id` (main.rs 135-146):
`SELECT id, username, email FROM users WHERE id = ?`, `fetch_optional`:
the first matching row if any. -/
def get_user_by_id (fail : Bool) (db : Db) (user_id : Int) :
    DbResult (Option User) :=
  if fail then DbResult.storeError
  else DbResult.ok ((db.rows.find? (fun r => r.id == user_id)).map Row.toUser)

/-- `UserRepository::delete_user` (main.rs 149-160):
`DELETE FROM users WHERE id = ? RETURNING id, username, email`,
`fetch_optional`: removes every matching row in one statement and returns
the first removed row if any. -/
def delete_user (fail : Bool) (db : Db) (user_id : Int) :
    DbResult (Option User × Db) :=
  if fail then DbResult.storeError
  else DbResult.ok
    ((db.rows.find? (fun r => r.id == user_id)).map Row.toUser,
     { db with rows := db.rows.filter (fun r => !(r.id == user_id)) })

end UserRepository

/-- An HTTP response body: a JSON document or a plain-text message. -/
inductive Body where
  | json : Json → Body
  | text : String → Body
  deriving Repr

/-- An HTTP response: status code plus body. -/
structure HttpResponse where
  status : Nat
  body : Body
  deriving Repr

/-- Handler `list_users` (main.rs 167-172): `GET /users`. -/
def list_users (fail : Bool) (db : Db) : HttpResponse :=
  match UserRepository.list_users fail db with
  | DbResult.ok users =>
      { status := 200, body := Body.json (Json.arr (users.map User.toJson)) }
  | DbResult.storeError =>
      { status := 500, body := Body.text "Error fetching users" }

/-- Handler `create_user` (main.rs 175-187): `POST /users`.  The body was
deserialized into a full `User`; only its `username` and `email` are passed
to the repository.  `HttpResponse::Created()` is status 201. -/
def create_user (fail : Bool) (db : Db) (user : User) : HttpResponse × Db :=
  match UserRepository.create_user fail db user.username user.email with
  | DbResult.ok (created_user, db2) =>
      ({ status := 201, body := Body.json created_user.toJson }, db2)
  | DbResult.storeError =>
      ({ status := 500, body := Body.text "Error creating user" }, db)

/-- Handler `get_user` (main.rs 190-201): `GET /users/{id}`. -/
def get_user (fail : Bool) (db : Db) (user_id : Int) : HttpResponse :=
  match UserRepository.get_user_by_id fail db user_id with
  | DbResult.ok (some user) => { status := 200, body := Body.json user.toJson }
  | DbResult.ok none => { status := 404, body := Body.text "User not found" }
  | DbResult.storeError =>
      { status := 500, body := Body.text "Error fetching user" }

/-- Handler `delete_user` (main.rs 204-215): `DELETE /users/{id}`. -/
def delete_user (fail : Bool) (db : Db) (user_id : Int) : HttpResponse × Db :=
  match UserRepository.delete_user fail db user_id with
  | DbResult.ok (some deleted_user, db2) =>
      ({ status := 200, body := Body.json deleted_user.toJson }, db2)
  | DbResult.ok (none, db2) =>
      ({ status := 404, body := Body.text "User not found" }, db2)
  | DbResult.storeError =>
      ({ status := 500, body := Body.text "Error deleting user" }, db)

/-- Errors that can abort startup (`sqlx::Error` values surfaced during
`setup_database`). -/
inductive SetupError where
  | createDatabaseError : SetupError
  | connectError : SetupError
  | migrateError : SetupError
  deriving Repr, DecidableEq

/-- `DatabaseConnection::new` (main.rs 23-35): connect the pool, then run
the migrations; either failure is returned with `?`. -/
def DatabaseConnection.new (connectOk migrateOk : Bool) :
    Except SetupError Unit :=
  if !connectOk then Except.error SetupError.connectError
  else if !migrateOk then Except.error SetupError.migrateError
  else Except.ok ()

/-- `setup_database` (main.rs 47-69): create the database file when it does
not exist (a failure there is returned with `?`), then
`DatabaseConnection::new`. -/
def setup_database (dbExists createOk connectOk migrateOk : Bool) :
    Except SetupError Unit :=
  if !dbExists && !createOk then Except.error SetupError.createDatabaseError
  else DatabaseConnection.new connectOk migrateOk

/-- Whether the process reaches `HttpServer::run` or aborts first. -/
inductive ProcessState where
  | serving : ProcessState
  | aborted : ProcessState
  deriving Repr, DecidableEq

/-- `main` (main.rs 73-102): `setup_database().await.expect(..)` panics —
aborting the process — on any setup error, before `HttpServer::new` is
ever evaluated; otherwise the server starts serving. -/
def main (dbExists createOk connectOk migrateOk : Bool) : ProcessState :=
  match setup_database dbExists createOk connectOk migrateOk with
  | Except.ok _ => ProcessState.serving
  | Except.error _ => ProcessState.aborted

/-- Running a sequence of `create_user` calls (no store failure) from a
given store state; returns the final state and the list of `id` fields of
the returned `User` records, in call order. -/
def createRun : Db → List (String × String) → Db × List (Option Int)
  | db, [] => (db, [])
  | db, op :: rest =>
    match UserRepository.create_user false db op.1 op.2 with
    | DbResult.ok (u, db2) =>
      let p := createRun db2 rest
      (p.1, u.id :: p.2)
    | DbResult.storeError => (db, [])

/-! Helper lemmas shared by the claim theorems. -/

lemma find?_id_none (rows : List Row) (i : Int) (h : ∀ r ∈ rows, r.id ≠ i) :
    rows.find? (fun r => r.id == i) = none := by
  rw [List.find?_eq_none]
  intro r hr
  simpa using h r hr

lemma find?_filter_id_none (rows : List Row) (i : Int) :
    (rows.filter (fun r => !(r.id == i))).find? (fun r => r.id == i) = none := by
  rw [List.find?_eq_none]
  intro r hr
  have := (List.mem_filter.mp hr).2
  simpa using this

lemma createRun_rows_mem (ops : List (String × String)) (db : Db) (r : Row)
    (hr : r ∈ (createRun db ops).1.rows) :
    r ∈ db.rows ∨ some r.id ∈ (createRun db ops).2 := by
  induction ops generalizing db with
  | nil => exact Or.inl hr
  | cons op rest ih =>
    simp only [createRun, UserRepository.create_user, if_neg (Bool.false_ne_true)] at hr ⊢
    rcases ih _ hr with hmem | hid
    · rcases List.mem_append.mp hmem with h1 | h2
      · exact Or.inl h1
      · refine Or.inr ?_
        have : r.id = db.nextId := by
          have := List.mem_singleton.mp h2
          simp [this]
        simp [Row.toUser, this]
    · exact Or.inr (List.mem_cons_of_mem _ hid)

/-- A sample store state used by the witnesses below. -/
def sampleDb : Db :=
  { rows := [{ id := 1, username := "alice", email := "a@x.com" }], nextId := 2 }

/-- The sole user of `sampleDb`, as returned by the repository. -/
def sampleUser : User :=
  { id := some 1, username := "alice", email := "a@x.com" }

/-- C1: for every valid (username, email) pair, `create` followed by
`getById` on the id `create` returned yields a `User` equal to the created
one (same id, username, email). -/
theorem create_then_getById (db : Db) (hwf : db.wf) (un em : String) :
    ∃ u db2, UserRepository.create_user false db un em = DbResult.ok (u, db2) ∧
      ∃ i, u.id = some i ∧
        UserRepository.get_user_by_id false db2 i = DbResult.ok (some u) := by
  refine ⟨_, _, rfl, db.nextId, rfl, ?_⟩
  simp only [UserRepository.get_user_by_id, UserRepository.create_user,
    if_neg (Bool.false_ne_true)]
  have hnone : db.rows.find? (fun r => r.id == db.nextId) = none :=
    find?_id_none _ _ (fun r hr => Int.ne_of_lt (hwf r hr))
  rw [List.find?_append, hnone]
  simp [Row.toUser]

theorem create_then_getById_witness :
    Db.empty.wf ∧
    ∃ u db2,
      UserRepository.create_user false Db.empty "alice" "a@x.com"
        = DbResult.ok (u, db2) ∧
      ∃ i, u.id = some i ∧
        UserRepository.get_user_by_id false db2 i = DbResult.ok (some u) :=
  ⟨by decide, create_then_getById Db.empty (by decide) "alice" "a@x.com"⟩

/-- C2: `deleteById` is idempotent in effect: when `getById` finds a row,
the first `deleteById` on that id removes it and returns that row's prior
state, and a second call on the same id returns the explicit not-found
result. -/
theorem deleteById_idempotent (db : Db) (i : Int) (u : User)
    (h : UserRepository.get_user_by_id false db i = DbResult.ok (some u)) :
    ∃ db1 db2,
      UserRepository.delete_user false db i = DbResult.ok (some u, db1) ∧
      UserRepository.delete_user false db1 i = DbResult.ok (none, db2) := by
  simp only [UserRepository.get_user_by_id, if_neg (Bool.false_ne_true),
    DbResult.ok.injEq] at h
  refine ⟨{ db with rows := db.rows.filter (fun r => !(r.id == i)) },
      { db with rows :=
          (db.rows.filter (fun r => !(r.id == i))).filter (fun r => !(r.id == i)) },
      ?_, ?_⟩
  · simp only [UserRepository.delete_user, if_neg (Bool.false_ne_true), h]
  · simp only [UserRepository.delete_user, if_neg (Bool.false_ne_true)]
    rw [find?_filter_id_none]
    simp

theorem deleteById_idempotent_witness :
    ∃ db1 db2,
      UserRepository.delete_user false sampleDb 1 = DbResult.ok (some sampleUser, db1) ∧
      UserRepository.delete_user false db1 1 = DbResult.ok (none, db2) :=
  deleteById_idempotent sampleDb 1 sampleUser (by decide)

/-- C6: no uniqueness is enforced: two `create` calls with identical
username and email both succeed, the returned records carry those fields
verbatim, and the two assigned ids are distinct. -/
theorem create_duplicates_distinct_ids (db : Db) (un em : String) :
    ∃ u1 db1 u2 db2,
      UserRepository.create_user false db un em = DbResult.ok (u1, db1) ∧
      UserRepository.create_user false db1 un em = DbResult.ok (u2, db2) ∧
      u1.username = un ∧ u1.email = em ∧
      u2.username = un ∧ u2.email = em ∧ u1.id ≠ u2.id := by
  refine ⟨_, _, _, _, rfl, rfl, rfl, rfl, rfl, rfl, ?_⟩
  simp only [UserRepository.create_user, if_neg (Bool.false_ne_true), Row.toUser,
    Option.some.injEq, ne_eq]
  omega

/-- C7: `list()` returns the full contents of the users table as a
sequence in storage order (no pagination), and an empty table yields the
empty sequence, not an error. -/
theorem list_users_full_table (db : Db) :
    UserRepository.list_users false db = DbResult.ok (db.rows.map Row.toUser) ∧
    (db.rows = [] → UserRepository.list_users false db = DbResult.ok []) := by
  constructor
  · simp [UserRepository.list_users]
  · intro h
    simp [UserRepository.list_users, h]

theorem list_users_full_table_witness :
    UserRepository.list_users false Db.empty = DbResult.ok [] :=
  (list_users_full_table Db.empty).2 rfl

/-- C3: `getById(id)` returns the matching `User` when a row with that id
exists, and otherwise the explicit not-found result; absent a store
failure it is never a store error, and in particular it is the not-found
result for any id never assigned by a prior sequence of `create` calls on
an initially empty store. -/
theorem getById_found_or_notFound (db : Db) (i : Int)
    (ops : List (String × String)) :
    (∀ r, db.rows.find? (fun x => x.id == i) = some r →
        r.id = i ∧
        UserRepository.get_user_by_id false db i = DbResult.ok (some r.toUser)) ∧
    (db.rows.find? (fun x => x.id == i) = none →
        UserRepository.get_user_by_id false db i = DbResult.ok none) ∧
    UserRepository.get_user_by_id false db i ≠ DbResult.storeError ∧
    (some i ∉ (createRun Db.empty ops).2 →
        UserRepository.get_user_by_id false (createRun Db.empty ops).1 i
          = DbResult.ok none) := by
  refine ⟨?_, ?_, ?_, ?_⟩
  · intro r hr
    refine ⟨by simpa using List.find?_some hr, ?_⟩
    simp [UserRepository.get_user_by_id, hr]
  · intro hnone
    simp [UserRepository.get_user_by_id, hnone]
  · cases hfind : db.rows.find? (fun x => x.id == i) <;>
      simp [UserRepository.get_user_by_id, hfind]
  · intro hnotin
    have hnone :
        (createRun Db.empty ops).1.rows.find? (fun x => x.id == i) = none := by
      rw [List.find?_eq_none]
      intro r hr hpred
      have hid : r.id = i := by simpa using hpred
      rcases createRun_rows_mem ops Db.empty r hr with hmem | hin
      · simp [Db.empty] at hmem
      · exact hnotin (hid ▸ hin)
    simp [UserRepository.get_user_by_id, hnone]

theorem getById_found_or_notFound_witness :
    UserRepository.get_user_by_id false
        (createRun Db.empty [("alice", "a@x.com")]).1 2 = DbResult.ok none :=
  (getById_found_or_notFound
      (createRun Db.empty [("alice", "a@x.com")]).1 2
      [("alice", "a@x.com")]).2.2.2 (by decide)

/-- C4: the `GET /users/{id}` and `DELETE /users/{id}` handlers map the
repository result to HTTP exactly as: found → 200 with the record as JSON
body, not found → 404 with a plain-text message, store error → 500 with a
plain-text message. -/
theorem id_handlers_status_mapping (db : Db) (i : Int) :
    (∀ u, UserRepository.get_user_by_id false db i = DbResult.ok (some u) →
        get_user false db i = { status := 200, body := Body.json u.toJson }) ∧
    (UserRepository.get_user_by_id false db i = DbResult.ok none →
        get_user false db i = { status := 404, body := Body.text "User not found" }) ∧
    get_user true db i = { status := 500, body := Body.text "Error fetching user" } ∧
    (∀ u db2, UserRepository.delete_user false db i = DbResult.ok (some u, db2) →
        delete_user false db i = ({ status := 200, body := Body.json u.toJson }, db2)) ∧
    (∀ db2, UserRepository.delete_user false db i = DbResult.ok (none, db2) →
        delete_user false db i
          = ({ status := 404, body := Body.text "User not found" }, db2)) ∧
    (delete_user true db i).1
      = { status := 500, body := Body.text "Error deleting user" } := by
  refine ⟨?_, ?_, ?_, ?_, ?_, ?_⟩
  · intro u h
    simp [get_user, h]
  · intro h
    simp [get_user, h]
  · simp [get_user, UserRepository.get_user_by_id]
  · intro u db2 h
    simp [delete_user, h]
  · intro db2 h
    simp [delete_user, h]
  · simp [delete_user, UserRepository.delete_user]

theorem id_handlers_status_mapping_witness :
    get_user false sampleDb 1
      = { status := 200, body := Body.json sampleUser.toJson } :=
  (id_handlers_status_mapping sampleDb 1).1 sampleUser (by decide)

/-- C5: a successful `POST /users` returns status 201 with the created
record (including the store-assigned id) as JSON body; a failed insert
returns status 500 with a plain-text message. -/
theorem create_handler_status_mapping (db : Db) (u : User) :
    (∀ cu db2,
        UserRepository.create_user false db u.username u.email
          = DbResult.ok (cu, db2) →
        create_user false db u
          = ({ status := 201, body := Body.json cu.toJson }, db2) ∧
        cu.id = some db.nextId) ∧
    (create_user true db u).1
      = { status := 500, body := Body.text "Error creating user" } := by
  constructor
  · intro cu db2 h
    refine ⟨by simp [create_user, h], ?_⟩
    simp only [UserRepository.create_user, if_neg (Bool.false_ne_true),
      DbResult.ok.injEq, Prod.mk.injEq] at h
    simp [← h.1, Row.toUser]
  · simp [create_user, UserRepository.create_user]

theorem create_handler_status_mapping_witness :
    create_user false sampleDb sampleUser
      = ({ status := 201,
           body := Body.json
             (User.toJson { id := some 2, username := "alice", email := "a@x.com" }) },
         { rows := sampleDb.rows
             ++ [{ id := 2, username := "alice", email := "a@x.com" }],
           nextId := 3 }) ∧
    (some 2 : Option Int) = some sampleDb.nextId :=
  (create_handler_status_mapping sampleDb sampleUser).1
    { id := some 2, username := "alice", email := "a@x.com" }
    { rows := sampleDb.rows
        ++ [{ id := 2, username := "alice", email := "a@x.com" }],
      nextId := 3 }
    (by decide)

/-- C8: any failure during database setup or migration at startup aborts
the whole process before the HTTP server serves traffic: a setup error —
in particular a migration failure — yields the aborted process state, and
the serving state is only reachable when migration succeeded. -/
theorem migration_failure_aborts (dbExists createOk connectOk migrateOk : Bool) :
    (∀ e, setup_database dbExists createOk connectOk migrateOk = Except.error e →
        main dbExists createOk connectOk migrateOk = ProcessState.aborted) ∧
    (migrateOk = false →
        main dbExists createOk connectOk migrateOk = ProcessState.aborted) ∧
    (main dbExists createOk connectOk migrateOk = ProcessState.serving →
        migrateOk = true) := by
  refine ⟨?_, ?_, ?_⟩ <;>
    cases dbExists <;> cases createOk <;> cases connectOk <;> cases migrateOk <;>
      simp [main, setup_database, DatabaseConnection.new]

theorem migration_failure_aborts_witness :
    main true true true false = ProcessState.aborted :=
  (migration_failure_aborts true true true false).2.1 rfl

/-- C9: the `POST /users` handler deserializes the body into the full
`User` type, so a client-supplied `id` field is accepted by
deserialization but ignored: the handler's outcome does not depend on it,
and the id of the created record is always the store-assigned one. -/
theorem create_ignores_client_id (n : Int) (un em : String) (db : Db)
    (fail : Bool) :
    User.fromJson
        (Json.obj [("id", Json.num n), ("username", Json.str un),
                   ("email", Json.str em)])
      = some { id := some n, username := un, email := em } ∧
    create_user fail db { id := some n, username := un, email := em }
      = create_user fail db { id := none, username := un, email := em } ∧
    (∀ cu db2,
        UserRepository.create_user false db un em = DbResult.ok (cu, db2) →
        cu.id = some db.nextId) := by
  refine ⟨rfl, rfl, ?_⟩
  intro cu db2 h
  simp only [UserRepository.create_user, if_neg (Bool.false_ne_true),
    DbResult.ok.injEq, Prod.mk.injEq] at h
  simp [← h.1, Row.toUser]

theorem create_ignores_client_id_witness :
    ({ id := some 1, username := "alice", email := "a@x.com" } : User).id
      = some Db.empty.nextId :=
  (create_ignores_client_id 99 "alice" "a@x.com" Db.empty false).2.2
    { id := some 1, username := "alice", email := "a@x.com" }
    { rows := [{ id := 1, username := "alice", email := "a@x.com" }], nextId := 2 }
    (by decide)

/-- C10: although `User.id` is optional in the type, every `User` returned
by any of the four repository operations has its id populated, because
each query selects or returns the `id` column of a persisted row. -/
theorem repository_results_have_id (db : Db) (un em : String) (i : Int) :
    (∀ users, UserRepository.list_users false db = DbResult.ok users →
        ∀ u ∈ users, u.id.isSome) ∧
    (∀ u db2, UserRepository.create_user false db un em = DbResult.ok (u, db2) →
        u.id.isSome) ∧
    (∀ u, UserRepository.get_user_by_id false db i = DbResult.ok (some u) →
        u.id.isSome) ∧
    (∀ u db2, UserRepository.delete_user false db i = DbResult.ok (some u, db2) →
        u.id.isSome) := by
  refine ⟨?_, ?_, ?_, ?_⟩
  · intro users h u hu
    simp only [UserRepository.list_users, if_neg (Bool.false_ne_true),
      DbResult.ok.injEq] at h
    rcases List.mem_map.mp (h ▸ hu) with ⟨r, _, hr⟩
    simp [← hr, Row.toUser]
  · intro u db2 h
    simp only [UserRepository.create_user, if_neg (Bool.false_ne_true),
      DbResult.ok.injEq, Prod.mk.injEq] at h
    simp [← h.1, Row.toUser]
  · intro u h
    simp only [UserRepository.get_user_by_id, if_neg (Bool.false_ne_true),
      DbResult.ok.injEq, Option.map_eq_some'] at h
    rcases h with ⟨r, _, hr⟩
    simp [← hr, Row.toUser]
  · intro u db2 h
    simp only [UserRepository.delete_user, if_neg (Bool.false_ne_true),
      DbResult.ok.injEq, Prod.mk.injEq, Option.map_eq_some'] at h
    rcases h.1 with ⟨r, _, hr⟩
    simp [← hr, Row.toUser]

theorem repository_results_have_id_witness :
    (sampleUser.id.isSome : Bool) = true :=
  (repository_results_have_id sampleDb "alice" "a@x.com" 1).2.2.1 sampleUser
    (by decide)

end RustApi
